import Mathlib

/-!
Verification development for the `exanubes/ecs-fargate-ci-cd-pipeline`
repository: a shallow embedding of the CDK declarations in
`infrastructure/lib/pipeline.stack.ts` and of the startup sequence in
`infrastructure/bin/infrastructure.ts`, together with the shell
semantics of the buildspec commands they declare, and theorems settling
the specification claims about them.
-/

set_option maxRecDepth 8192

namespace EcsPipeline

/-! ## Configuration constants (pipeline.stack.ts, lines 32-41) -/

/-- The `secretConfig` constant from pipeline.stack.ts lines 32-35. -/
structure SecretConfig where
  arn : String
  id : String
deriving DecidableEq, Repr

def secretConfig : SecretConfig :=
  { arn := "arn:aws:secretsmanager:eu-central-1:123456789012:secret:github/token"
  , id := "github/token" }

/-- The `githubConfig` constant from pipeline.stack.ts lines 37-41. -/
structure GithubConfig where
  owner : String
  repo : String
  branch : String
deriving DecidableEq, Repr

def githubConfig : GithubConfig :=
  { owner := "exanubes"
  , repo := "ecs-fargate-ci-cd-pipeline"
  , branch := "master" }

/-! ## Secret values

The CDK `SecretValue` API offers secret-store references
(`SecretValue.secretsManager`) as well as inline literals
(`SecretValue.plainText`); the embedding keeps both constructors so
that "no credential is an inline literal" is a real property of the
declarations below. -/

inductive SecretValue where
  | secretsManager (secretId : String)
  | plainText (value : String)
deriving DecidableEq, Repr

/-- A `SecretValue` is a secret-store reference (not an inlined literal). -/
def SecretValue.isSecretStoreReference : SecretValue → Bool
  | .secretsManager _ => true
  | .plainText _ => false

/-! ## Buildspec (pipeline.stack.ts, `getBuildSpec`, lines 140-183)

Each buildspec shell command is translated to one constructor, in source
order.  Commands whose only effect is diagnostic output are kept as
`echo`; the commands the claims depend on (`cut`-based tag computation,
`docker push`, the `printf` redirect) carry their operands. -/

/-- A tag component of `${REPOSITORY_URI}:<tag>` as it appears in the
buildspec: either the literal `latest` or the `${IMAGE_TAG}` variable. -/
inductive TagRef where
  | latest
  | imageTagVar
deriving DecidableEq, Repr

inductive BuildCommand where
  /-- Command `echo <text>` (diagnostic only). -/
  | echo (text : String)
  /-- Command `aws --version` (line 150). -/
  | awsVersion
  /-- Command `aws ecr get-login-password ... | docker login ...` (line 153). -/
  | ecrLogin
  /-- Command `COMMIT_HASH=$(echo $CODEBUILD_RESOLVED_SOURCE_VERSION | cut -c 1-7)`
  (line 154): assigns the first 7 characters of the named variable. -/
  | assignCommitHash (sourceVar : String)
  /-- Command `IMAGE_TAG=$\x7bCOMMIT_HASH:=latest\x7d` (line 156): assigns
  `COMMIT_HASH`, defaulting to the given literal when it is unset or
  empty. -/
  | assignImageTagDefault (defaultValue : String)
  /-- Command `docker build -f <dockerfile> -t $\x7bREPOSITORY_URI\x7d:<tag> <context>`
  (line 164). -/
  | dockerBuild (dockerfile : String) (tag : TagRef) (context : String)
  /-- Command `docker tag $\x7bREPOSITORY_URI\x7d:<src> $\x7bREPOSITORY_URI\x7d:<dst>`
  (line 166). -/
  | dockerTag (src dst : TagRef)
  /-- Command `docker push $\x7bREPOSITORY_URI\x7d:<tag>` (lines 173-174). -/
  | dockerPush (tag : TagRef)
  /-- Command `printf "[\x7b\"name\": \"$CONTAINER_NAME\", \"imageUri\":
  \"$REPOSITORY_URI:$IMAGE_TAG\"\x7d]" > <fileName>` (line 175). -/
  | writeImageDefinition (fileName : String)
deriving DecidableEq, Repr

/-- The buildspec object built by `PipelineStack.getBuildSpec`
(lines 141-182). -/
structure BuildSpecObj where
  version : String
  shell : String
  preBuildCommands : List BuildCommand
  buildCommands : List BuildCommand
  postBuildCommands : List BuildCommand
  artifactFiles : List String
deriving DecidableEq, Repr

def getBuildSpec : BuildSpecObj :=
  { version := "0.2"
  , shell := "bash"
  , preBuildCommands :=
      [ .echo "logging in to AWS ECR"
      , .awsVersion
      , .echo "$AWS_STACK_REGION"
      , .echo "$CONTAINER_NAME"
      , .ecrLogin
      , .assignCommitHash "CODEBUILD_RESOLVED_SOURCE_VERSION"
      , .echo "$COMMIT_HASH"
      , .assignImageTagDefault "latest"
      , .echo "$IMAGE_TAG" ]
  , buildCommands :=
      [ .echo "Build started on `date`"
      , .echo "Build Docker image"
      , .dockerBuild "$\x7bCODEBUILD_SRC_DIR\x7d/backend/Dockerfile" .latest "./backend"
      , .echo "Running docker tag"
      , .dockerTag .latest .imageTagVar ]
  , postBuildCommands :=
      [ .echo "Build completed on `date`"
      , .echo "Push Docker image"
      , .dockerPush .latest
      , .dockerPush .imageTagVar
      , .writeImageDefinition "docker_image_definition.json" ]
  , artifactFiles := ["docker_image_definition.json"] }

/-! ## Shell semantics of the tag computation (lines 154 and 156)

The revision identifier (`CODEBUILD_RESOLVED_SOURCE_VERSION`) is a shell
string, modelled by its character list wrapped in `String`; an unset or
unresolved variable expands to the empty string. -/

/-- Semantics of `COMMIT_HASH=$(echo $REV | cut -c 1-7)` (line 154):
`cut -c 1-7` keeps the first 7 characters. -/
def commitHash (rev : String) : String :=
  ⟨rev.data.take 7⟩

/-- Semantics of `IMAGE_TAG=$\x7bCOMMIT_HASH:=latest\x7d` (line 156): the
`:=` expansion substitutes the default when `COMMIT_HASH` is unset or
empty. -/
def imageTag (rev : String) : String :=
  if commitHash rev = "" then "latest" else commitHash rev

/-- The resolved tag string a `TagRef` denotes in a build whose revision
identifier is `rev`. -/
def TagRef.resolve (rev : String) : TagRef → String
  | .latest => "latest"
  | .imageTagVar => imageTag rev

/-! ## Build environment variables (pipeline.stack.ts, lines 70-87)

`REPOSITORY_URI`, `AWS_ACCOUNT_ID`, `AWS_STACK_REGION` and
`CONTAINER_NAME` take deploy-time values
(`props.repository.repositoryUri`, `stack.account`, `stack.region`,
`props.container.containerName`), so the declaration list is
parameterized over them. -/

inductive BuildEnvironmentVariableType where
  | plaintext
  | parameterStore
  | secretsManager
deriving DecidableEq, Repr

structure BuildEnvironmentVariable where
  type : BuildEnvironmentVariableType
  value : String
deriving DecidableEq, Repr

def environmentVariables (repositoryUri account region containerName : String) :
    List (String × BuildEnvironmentVariable) :=
  [ ("REPOSITORY_URI", ⟨.plaintext, repositoryUri⟩)
  , ("AWS_ACCOUNT_ID", ⟨.plaintext, account⟩)
  , ("AWS_STACK_REGION", ⟨.plaintext, region⟩)
  , ("GITHUB_AUTH_TOKEN", ⟨.secretsManager, secretConfig.arn⟩)
  , ("CONTAINER_NAME", ⟨.plaintext, containerName⟩) ]

/-! ## IAM policy added to the build project role (lines 90-95) -/

structure PolicyStatement where
  actions : List String
  resources : List String
deriving DecidableEq, Repr

/-- The statement passed to `project.addToRolePolicy` (lines 91-94). -/
def buildProjectPolicy : PolicyStatement :=
  { actions := ["secretsmanager:GetSecretValue"]
  , resources := [secretConfig.arn] }

/-! ## CodeBuild GitHub source and credentials (lines 46-57) -/

/-- The `GitHubSourceCredentials` declaration (lines 46-48). -/
structure GitHubSourceCredentials where
  accessToken : SecretValue
deriving DecidableEq, Repr

def codeBuildCredentials : GitHubSourceCredentials :=
  { accessToken := .secretsManager secretConfig.id }

inductive EventAction where
  | push
  | pullRequestCreated
  | pullRequestUpdated
deriving DecidableEq, Repr

/-- One `FilterGroup.inEventOf(e).andBranchIs(b)` webhook filter group. -/
structure WebhookFilterGroup where
  eventAction : EventAction
  branch : String
deriving DecidableEq, Repr

/-- The `Source.gitHub` declaration (lines 50-57). -/
structure CodeBuildGitHubSource where
  owner : String
  repo : String
  webhook : Bool
  webhookFilters : List WebhookFilterGroup
deriving DecidableEq, Repr

def source : CodeBuildGitHubSource :=
  { owner := githubConfig.owner
  , repo := githubConfig.repo
  , webhook := true
  , webhookFilters := [⟨.push, githubConfig.branch⟩] }

/-! ## Pipeline artifacts and actions (lines 98-127) -/

/-- Pipeline artifacts, identified by their names (lines 98-101). -/
inductive ArtifactId where
  | sourceArtifact
  | buildArtifact
deriving DecidableEq, Repr

def ArtifactId.artifactName : ArtifactId → String
  | .sourceArtifact => "Source"
  | .buildArtifact => "BuildOutput"

inductive GitHubTrigger where
  | none
  | poll
  | webhook
deriving DecidableEq, Repr

/-- The `GitHubSourceAction` declaration (lines 104-112). -/
structure GitHubSourceActionDecl where
  actionName : String
  owner : String
  repo : String
  branch : String
  oauthToken : SecretValue
  output : ArtifactId
  trigger : GitHubTrigger
deriving DecidableEq, Repr

def sourceAction : GitHubSourceActionDecl :=
  { actionName := "Github"
  , owner := githubConfig.owner
  , repo := githubConfig.repo
  , branch := githubConfig.branch
  , oauthToken := .secretsManager "github/cdk-pipeline"
  , output := .sourceArtifact
  , trigger := .webhook }

/-- The `CodeBuildAction` declaration (lines 113-118); the project it runs
carries `getBuildSpec`. -/
structure CodeBuildActionDecl where
  actionName : String
  projectBuildSpec : BuildSpecObj
  input : ArtifactId
  outputs : List ArtifactId
deriving DecidableEq, Repr

def buildAction : CodeBuildActionDecl :=
  { actionName := "CodeBuild"
  , projectBuildSpec := getBuildSpec
  , input := .sourceArtifact
  , outputs := [.buildArtifact] }

/-- An `ArtifactPath(artifact, fileName)` value (lines 122-125). -/
structure ArtifactPath where
  artifact : ArtifactId
  fileName : String
deriving DecidableEq, Repr

/-- The `EcsDeployAction` declaration (lines 119-126). -/
structure EcsDeployActionDecl where
  actionName : String
  imageFile : ArtifactPath
deriving DecidableEq, Repr

def deployAction : EcsDeployActionDecl :=
  { actionName := "ECSDeploy"
  , imageFile := ⟨.buildArtifact, "docker_image_definition.json"⟩ }

/-! ## Pipeline stages (lines 129-136) -/

inductive PipelineAction where
  | githubSource (a : GitHubSourceActionDecl)
  | codeBuild (a : CodeBuildActionDecl)
  | ecsDeploy (a : EcsDeployActionDecl)
deriving DecidableEq, Repr

structure StageDecl where
  stageName : String
  actions : List PipelineAction
deriving DecidableEq, Repr

structure PipelineDecl where
  pipelineName : String
  stages : List StageDecl
deriving DecidableEq, Repr

def deployPipeline : PipelineDecl :=
  { pipelineName := "exanubes-pipeline"
  , stages :=
      [ ⟨"Source", [.githubSource sourceAction]⟩
      , ⟨"Build", [.codeBuild buildAction]⟩
      , ⟨"Deploy", [.ecsDeploy deployAction]⟩ ] }

/-! ## Steps of a pipeline run

The pipeline declaration determines an ordered list of steps: the
source stage's GitHub action fetches the source, the build stage's
CodeBuild action runs the buildspec (whose `docker build` commands are
the build step and whose `docker push` commands are the push step), and
the deploy stage's ECS action deploys. -/

inductive Step where
  | sourceFetch
  | build
  | push
  | deploy
deriving DecidableEq, Repr

/-- The step a buildspec command performs, if any. -/
def stepOfCommand : BuildCommand → Option Step
  | .dockerBuild _ _ _ => some .build
  | .dockerPush _ => some .push
  | _ => none

/-- The steps a buildspec performs, in phase order (`pre_build`,
`build`, `post_build`), consecutive repeats of a step collapsed. -/
def stepsOfBuildSpec (bs : BuildSpecObj) : List Step :=
  ((bs.preBuildCommands ++ bs.buildCommands ++ bs.postBuildCommands).filterMap
    stepOfCommand).eraseDups

def stepsOfAction : PipelineAction → List Step
  | .githubSource _ => [.sourceFetch]
  | .codeBuild a => stepsOfBuildSpec a.projectBuildSpec
  | .ecsDeploy _ => [.deploy]

/-- The ordered step list a pipeline declaration gives rise to. -/
def pipelineSteps (p : PipelineDecl) : List Step :=
  (p.stages.map fun st => (st.actions.map stepsOfAction).flatten).flatten

/-- Modelled from the spec: the pipeline service's execution of a
declared step list is absent from src/ (it is the vendor control plane);
per the spec it sequences the steps, "gating each on the previous step's
success", and "any stage failure halts the run".  `ok` says whether a
step succeeds when it is attempted; the result records each attempted
step with its outcome. -/
def runSteps (ok : Step → Bool) : List Step → List (Step × Bool)
  | [] => []
  | s :: rest => if ok s then (s, true) :: runSteps ok rest else [(s, false)]

/-- The steps actually attempted in a run. -/
def attemptedSteps (ok : Step → Bool) (l : List Step) : List Step :=
  (runSteps ok l).map Prod.fst

/-! ## Webhook trigger semantics (lines 50-57 and 104-112) -/

/-- A source-control push event, as delivered by the webhook. -/
structure PushEvent where
  eventAction : EventAction
  branch : String
  revisionId : String
deriving DecidableEq, Repr

/-- Modelled from the spec: webhook filter matching is performed by the
vendor service, absent from src/; a filter group declared as
`inEventOf(e).andBranchIs(b)` matches an event iff the event is of kind
`e` and on branch `b`. -/
def WebhookFilterGroup.matchesEvent (g : WebhookFilterGroup) (e : PushEvent) : Bool :=
  g.eventAction == e.eventAction && g.branch == e.branch

/-- Whether an event starts a build of the CodeBuild GitHub source: the
webhook must be enabled and some declared filter group must match. -/
def CodeBuildGitHubSource.triggersBuild (s : CodeBuildGitHubSource) (e : PushEvent) : Bool :=
  s.webhook && s.webhookFilters.any (·.matchesEvent e)

/-- Modelled from the spec: the pipeline's webhook trigger is the vendor
service, absent from src/; a `GitHubSourceAction` with a webhook trigger
starts a pipeline run for a push event iff the event is a push on the
action's configured branch. -/
def GitHubSourceActionDecl.triggersRun (a : GitHubSourceActionDecl) (e : PushEvent) : Bool :=
  a.trigger == .webhook && e.eventAction == .push && e.branch == a.branch

/-! ## The image-definition artifact (line 175 and lines 119-126) -/

/-- One entry of the image-definition record. -/
structure ImageDefinition where
  name : String
  imageUri : String
deriving DecidableEq, Repr

/-- Bash expansion of the `printf` format string of line 175, with
`$CONTAINER_NAME`, `$REPOSITORY_URI` and `$IMAGE_TAG` substituted: the
content written to `docker_image_definition.json`. -/
def postBuildFileContent (containerName repositoryUri tag : String) : String :=
  "[\x7b\"name\": \"" ++ containerName ++ "\", \"imageUri\": \""
    ++ repositoryUri ++ ":" ++ tag ++ "\"\x7d]"

/-- Rendering of an image-definition record list in the shape the spec
describes, `[\x7b "name": <n>, "imageUri": <u> \x7d, ...]`, to compare
with the string the build actually writes. -/
def renderImageDefinitions (ds : List ImageDefinition) : String :=
  "[" ++ String.intercalate ", "
    (ds.map fun d =>
      "\x7b\"name\": \"" ++ d.name ++ "\", \"imageUri\": \"" ++ d.imageUri ++ "\"\x7d")
    ++ "]"

/-- The record the post_build phase hands to the deploy step for a build
with the given container name, repository URI and tag. -/
def imageDefinitionRecord (containerName repositoryUri tag : String) :
    List ImageDefinition :=
  [⟨containerName, repositoryUri ++ ":" ++ tag⟩]

/-- The tags under which the post_build phase pushes the image (the
`docker push` commands of lines 173-174), resolved for revision `rev`. -/
def pushedTags (rev : String) : List String :=
  (getBuildSpec.postBuildCommands.filterMap fun c =>
    match c with
    | .dockerPush t => some (t.resolve rev)
    | _ => none)

/-- The file names written by a command list's `printf` redirects. -/
def writtenFiles (cs : List BuildCommand) : List String :=
  cs.filterMap fun c =>
    match c with
    | .writeImageDefinition f => some f
    | _ => none

/-! ## Startup sequence (infrastructure/bin/infrastructure.ts, lines 13-39)

The `start` function resolves the owner name, account id and region
once, then constructs the five stacks with the captured `env` value and
tags the app.  Its effect trace is embedded event by event; a
`writeSetting` event exists in the event type so that "no operation
mutates a setting" is a real property of the trace. -/

inductive StartupEvent where
  | readSetting (name : String)
  | writeSetting (name : String) (value : String)
  | constructStack (stackName : String) (account region : String)
  | addTag (key value : String)
deriving DecidableEq, Repr

/-- Effect trace of `start()` (lines 13-39): three setting reads
(`resolveCurrentUserOwnerName`, `getAccountId`, `getRegion`), five stack
constructions each receiving the one captured `env = \x7baccount, region\x7d`,
then the owner tag. -/
def startTrace (owner account region : String) : List StartupEvent :=
  [ .readSetting "owner"
  , .readSetting "account"
  , .readSetting "region"
  , .constructStack "EcrStack" account region
  , .constructStack "VpcStack" account region
  , .constructStack "ElasticContainerStack" account region
  , .constructStack "Route53Stack" account region
  , .constructStack "PipelineStack" account region
  , .addTag "owner" owner ]

def StartupEvent.isSettingRead : StartupEvent → Bool
  | .readSetting _ => true
  | _ => false

def StartupEvent.isSettingWrite : StartupEvent → Bool
  | .writeSetting _ _ => true
  | _ => false

/-- The setting a read event reads, if any. -/
def StartupEvent.readName : StartupEvent → Option String
  | .readSetting n => some n
  | _ => none

/-- The credentials appearing in the pipeline stack's declarations: the
CodeBuild source credentials' access token (line 47) and the pipeline
source action's OAuth token (line 109). -/
def configuredCredentials : List SecretValue :=
  [codeBuildCredentials.accessToken, sourceAction.oauthToken]

/-- The tag references of a command list's `docker push` commands. -/
def pushTagRefs (cs : List BuildCommand) : List TagRef :=
  cs.filterMap fun c =>
    match c with
    | .dockerPush t => some t
    | _ => none

/-! ## Helper lemmas about the run semantics -/

/-- A run is the successful execution of the longest all-succeeding
prefix followed by at most one failing step. -/
theorem runSteps_eq_takeWhile (ok : Step → Bool) (l : List Step) :
    runSteps ok l
      = ((l.takeWhile ok).map fun s => (s, true))
        ++ (((l.dropWhile ok).take 1).map fun s => (s, false)) := by
  induction l with
  | nil => rfl
  | cons s t ih =>
    cases h : ok s with
    | true => simp [runSteps, List.takeWhile_cons, List.dropWhile_cons, h, ih]
    | false => simp [runSteps, List.takeWhile_cons, List.dropWhile_cons, h]

/-- The attempted steps of a run form a prefix of the declared step
list: no step is skipped or reordered. -/
theorem attemptedSteps_append_eq (ok : Step → Bool) (l : List Step) :
    attemptedSteps ok l ++ (l.dropWhile ok).drop 1 = l := by
  have h : attemptedSteps ok l
      = l.takeWhile ok ++ (l.dropWhile ok).take 1 := by
    simp [attemptedSteps, runSteps_eq_takeWhile, Function.comp_def]
  rw [h, List.append_assoc, List.take_append_drop,
    List.takeWhile_append_dropWhile]

/-! ## Claim theorems -/

/-- C1: for every resolved (non-empty) revision identifier string, the
image tag computed by the build's pre_build phase equals the first 7
characters of the revision identifier; for the revision identifier
"abcdef1234567" the tag is "abcdef1", and for an empty or unresolved
revision identifier the tag is the literal "latest". -/
theorem claim_C1_image_tag (rev : String) (h : rev ≠ "") :
    imageTag rev = ⟨rev.data.take 7⟩
      ∧ imageTag "abcdef1234567" = "abcdef1"
      ∧ imageTag "" = "latest" := by
  refine ⟨?_, by decide, by decide⟩
  have hd : rev.data ≠ [] := by
    intro hnil
    apply h
    cases rev with
    | mk d =>
      simp only [String.data] at hnil
      simp [hnil]
  unfold imageTag commitHash
  rw [if_neg]
  intro hc
  have hdata : rev.data.take 7 = [] := by
    have := congrArg String.data hc
    simpa using this
  rcases List.take_eq_nil_iff.mp hdata with h7 | hnil
  · exact absurd h7 (by norm_num)
  · exact hd hnil

/-- Witness for C1 at the revision identifier "abcdef1234567". -/
theorem claim_C1_image_tag_witness :
    imageTag "abcdef1234567" = ⟨"abcdef1234567".data.take 7⟩
      ∧ imageTag "abcdef1234567" = "abcdef1"
      ∧ imageTag "" = "latest" :=
  claim_C1_image_tag "abcdef1234567" (by decide)

/-- C2: for every pipeline run, the image-definition record handed from
the build step to the deploy step is the one-element list
`[\x7b"name": <container-name>, "imageUri": <registry-uri>:<tag>\x7d]` — its
rendering is exactly the file content post_build writes — and the
deploy action consumes exactly this record (the single
`docker_image_definition.json` artifact file) and nothing else from the
build output. -/
theorem claim_C2_image_definition_contract
    (containerName repositoryUri tag : String) :
    imageDefinitionRecord containerName repositoryUri tag
        = [⟨containerName, repositoryUri ++ ":" ++ tag⟩]
      ∧ (imageDefinitionRecord containerName repositoryUri tag).length = 1
      ∧ renderImageDefinitions (imageDefinitionRecord containerName repositoryUri tag)
          = postBuildFileContent containerName repositoryUri tag
      ∧ writtenFiles getBuildSpec.postBuildCommands = ["docker_image_definition.json"]
      ∧ getBuildSpec.artifactFiles = ["docker_image_definition.json"]
      ∧ deployAction.imageFile = ⟨.buildArtifact, "docker_image_definition.json"⟩
      ∧ buildAction.outputs = [.buildArtifact] := by
  refine ⟨rfl, rfl, ?_, rfl, rfl, rfl, rfl⟩
  simp [renderImageDefinitions, imageDefinitionRecord, postBuildFileContent,
    String.intercalate, String.intercalate.go]
  apply String.ext
  simp [String.data_append]

/-- C3: the pipeline declaration yields the steps source-fetch, build,
push, deploy in that order; under the gated run semantics a run
executes the longest all-succeeding prefix and at most one failing
step (so each step starts only after every previous step succeeded),
a run of all-succeeding steps executes all four in order, and the
image tag produced by the build is the one exposed to the deploy step
(the deploy action reads the file post_build writes, whose tag variable
resolves to the build's image tag). -/
theorem claim_C3_step_sequencing :
    pipelineSteps deployPipeline
        = [Step.sourceFetch, Step.build, Step.push, Step.deploy]
      ∧ (∀ ok : Step → Bool,
          runSteps ok (pipelineSteps deployPipeline)
            = (((pipelineSteps deployPipeline).takeWhile ok).map fun s => (s, true))
              ++ ((((pipelineSteps deployPipeline).dropWhile ok).take 1).map
                    fun s => (s, false)))
      ∧ (∀ ok : Step → Bool,
          ∃ rest, attemptedSteps ok (pipelineSteps deployPipeline) ++ rest
            = pipelineSteps deployPipeline)
      ∧ (∀ ok : Step → Bool, (∀ s, ok s = true) →
          runSteps ok (pipelineSteps deployPipeline)
            = [(Step.sourceFetch, true), (Step.build, true),
               (Step.push, true), (Step.deploy, true)])
      ∧ deployAction.imageFile.fileName ∈ writtenFiles getBuildSpec.postBuildCommands
      ∧ (∀ rev, TagRef.imageTagVar.resolve rev = imageTag rev) := by
  have hsteps : pipelineSteps deployPipeline
      = [Step.sourceFetch, Step.build, Step.push, Step.deploy] := by decide
  refine ⟨hsteps, fun ok => runSteps_eq_takeWhile ok _,
    fun ok => ⟨_, attemptedSteps_append_eq ok _⟩, fun ok hok => ?_, by decide,
    fun rev => rfl⟩
  rw [hsteps]
  simp [runSteps, hok]

/-- C4: for every build, the push step (the post_build phase) uploads
the built image under exactly two tags, the literal "latest" and the
revision-derived tag, and no other phase pushes any tag. -/
theorem claim_C4_push_tags (rev : String) :
    pushedTags rev = ["latest", imageTag rev]
      ∧ (pushedTags rev).length = 2
      ∧ pushTagRefs getBuildSpec.postBuildCommands = [TagRef.latest, TagRef.imageTagVar]
      ∧ pushTagRefs (getBuildSpec.preBuildCommands ++ getBuildSpec.buildCommands)
          = [] := by
  exact ⟨rfl, rfl, by decide, by decide⟩

/-- C5: an incoming source-control push event triggers a pipeline run
(and the CodeBuild project's webhook) if and only if the event's branch
equals the configured branch, which is "master". -/
theorem claim_C5_branch_trigger (e : PushEvent) (h : e.eventAction = .push) :
    (sourceAction.triggersRun e = true ↔ e.branch = "master")
      ∧ (source.triggersBuild e = true ↔ e.branch = "master")
      ∧ sourceAction.branch = githubConfig.branch
      ∧ githubConfig.branch = "master" := by
  refine ⟨?_, ?_, rfl, rfl⟩
  · simp [GitHubSourceActionDecl.triggersRun, sourceAction, h, githubConfig]
  · simp [CodeBuildGitHubSource.triggersBuild, source,
      WebhookFilterGroup.matchesEvent, h, githubConfig]
    exact eq_comm

/-- Witness for C5 at a concrete push event on branch "master". -/
theorem claim_C5_branch_trigger_witness :
    (sourceAction.triggersRun ⟨.push, "master", "abcdef1234567"⟩ = true
        ↔ ("master" : String) = "master")
      ∧ (source.triggersBuild ⟨.push, "master", "abcdef1234567"⟩ = true
          ↔ ("master" : String) = "master")
      ∧ sourceAction.branch = githubConfig.branch
      ∧ githubConfig.branch = "master" :=
  claim_C5_branch_trigger ⟨.push, "master", "abcdef1234567"⟩ rfl

/-- C6: every credential in the configuration (the CodeBuild GitHub
access token, the build environment's GITHUB_AUTH_TOKEN, the pipeline
source action's oauthToken) is a secret-store reference (a Secrets
Manager name or ARN), and no credential value is an inlined literal. -/
theorem claim_C6_credentials_by_reference :
    configuredCredentials.all SecretValue.isSecretStoreReference = true
      ∧ codeBuildCredentials.accessToken = .secretsManager secretConfig.id
      ∧ sourceAction.oauthToken = .secretsManager "github/cdk-pipeline"
      ∧ (∀ u a r c, (environmentVariables u a r c).lookup "GITHUB_AUTH_TOKEN"
          = some ⟨.secretsManager, secretConfig.arn⟩)
      ∧ (∀ v ∈ configuredCredentials, ∀ s, v ≠ .plainText s) := by
  refine ⟨by decide, rfl, rfl, fun u a r c => rfl, ?_⟩
  intro v hv s
  simp [configuredCredentials, codeBuildCredentials, sourceAction] at hv
  rcases hv with h | h <;> simp [h]

/-- C7: the process-wide settings are read exactly once at startup
(the three reads head the trace of `start()`, in order), nothing in the
trace mutates a setting, every stack construction receives the account
and region captured at startup, and the repository owner/name/branch
and container-name uses yield the startup values. -/
theorem claim_C7_settings_read_once
    (owner account region repositoryUri containerName : String) :
    ((startTrace owner account region).filterMap StartupEvent.readName
        = ["owner", "account", "region"])
      ∧ ((startTrace owner account region).take 3).all
          StartupEvent.isSettingRead = true
      ∧ ((startTrace owner account region).drop 3).all
          (fun e => !e.isSettingRead) = true
      ∧ (∀ e ∈ startTrace owner account region, e.isSettingWrite = false)
      ∧ (∀ e ∈ startTrace owner account region, ∀ s a2 r2,
          e = .constructStack s a2 r2 → a2 = account ∧ r2 = region)
      ∧ source.owner = githubConfig.owner
      ∧ source.repo = githubConfig.repo
      ∧ sourceAction.owner = githubConfig.owner
      ∧ sourceAction.repo = githubConfig.repo
      ∧ sourceAction.branch = githubConfig.branch
      ∧ (environmentVariables repositoryUri account region containerName).lookup
          "CONTAINER_NAME" = some ⟨.plaintext, containerName⟩ := by
  refine ⟨rfl, rfl, rfl, ?_, ?_, rfl, rfl, rfl, rfl, rfl, rfl⟩
  · intro e he
    simp [startTrace] at he
    rcases he with h | h | h | h | h | h | h | h | h <;>
      simp [h, StartupEvent.isSettingWrite]
  · intro e he s a2 r2 hc
    simp [startTrace] at he
    rcases he with h | h | h | h | h | h | h | h | h <;>
      simp [h] at hc <;> simp [hc]

/-- C8: the IAM policy statement attached to the build project's role
grants the action secretsmanager:GetSecretValue on exactly the one
secret ARN that the GITHUB_AUTH_TOKEN build environment variable
references, and on no other resource. -/
theorem claim_C8_secret_policy (u a r c : String) :
    buildProjectPolicy.actions = ["secretsmanager:GetSecretValue"]
      ∧ buildProjectPolicy.resources = [secretConfig.arn]
      ∧ buildProjectPolicy.resources.length = 1
      ∧ (environmentVariables u a r c).lookup "GITHUB_AUTH_TOKEN"
          = some ⟨.secretsManager, secretConfig.arn⟩
      ∧ (∀ res ∈ buildProjectPolicy.resources, res = secretConfig.arn) := by
  refine ⟨rfl, rfl, rfl, rfl, ?_⟩
  intro res hres
  simpa [buildProjectPolicy] using hres

/-- C9: the file name the post_build phase writes, the file name in the
buildspec's artifacts list, and the file path the deploy action reads
its image definition from are all "docker_image_definition.json". -/
theorem claim_C9_image_definition_file_name :
    writtenFiles getBuildSpec.postBuildCommands = ["docker_image_definition.json"]
      ∧ getBuildSpec.artifactFiles = ["docker_image_definition.json"]
      ∧ deployAction.imageFile.fileName = "docker_image_definition.json"
      ∧ deployAction.imageFile.artifact = .buildArtifact := by
  decide

/-- C10: the CodeBuild project's GitHub source and the pipeline's GitHub
source action carry identical owner, repository and branch values, all
equal to the `githubConfig` fields, while their authentication
references name two distinct Secrets Manager secret ids, "github/token"
and "github/cdk-pipeline". -/
theorem claim_C10_shared_config_distinct_secrets :
    source.owner = githubConfig.owner
      ∧ sourceAction.owner = githubConfig.owner
      ∧ source.repo = githubConfig.repo
      ∧ sourceAction.repo = githubConfig.repo
      ∧ source.webhookFilters.map WebhookFilterGroup.branch = [githubConfig.branch]
      ∧ sourceAction.branch = githubConfig.branch
      ∧ codeBuildCredentials.accessToken = .secretsManager "github/token"
      ∧ secretConfig.id = "github/token"
      ∧ sourceAction.oauthToken = .secretsManager "github/cdk-pipeline"
      ∧ ("github/token" : String) ≠ "github/cdk-pipeline"
      ∧ codeBuildCredentials.accessToken ≠ sourceAction.oauthToken := by
  decide

end EcsPipeline
